import Mathlib

/-!
# FusionAuth provider: email template resource and application schema

A shallow embedding of `fusionauth/resource_fusionauth_email.go` (the email
template resource: `newEmail`, `buildEmail`, `createEmail`, `readEmail`,
`updateEmail`, `deleteEmail`) and of the schema tables of
`fusionauth/schema_fusionauth_application.go`.

Go values of type `interface{}` are a small dynamic value type, a run-time
type-assertion failure is an `Except.error`, the attribute store is passed
explicitly, and every lifecycle operation returns what it returned, the store
it leaves behind and the remote calls it issued.
-/

namespace FusionAuth

/-! ## Dynamic values -/

/-- Entries of a Go map from string to string, in no particular order. -/
abbrev StrMap := List (String × String)

/-- The value kinds of the schema framework used by the two source files. -/
inductive ValueType where
  | TypeBool
  | TypeInt
  | TypeString
  | TypeList
  | TypeMap
  | TypeSet
  deriving DecidableEq, Repr

/-- A Go value held in an `interface{}`, with the dynamic types that occur in the
sources. `mapStringString none` is a nil `map[string]string`;
`mapStringInterface m` is a `map[string]interface{}` whose elements are strings. -/
inductive GoValue where
  | nil
  | bool (b : Bool)
  | int (n : Int)
  | string (s : String)
  | mapStringString (m : Option StrMap)
  | mapStringInterface (m : StrMap)
  deriving DecidableEq, Repr

/-- A run-time panic, carrying its message. -/
abbrev Panic := String

/-- The Go type assertion `v.(string)`. -/
def GoValue.assertString : GoValue → Except Panic String
  | .string s => .ok s
  | _ => .error "interface conversion: interface {} is not string"

/-- The Go type assertion `v.(map[string]string)`: it succeeds only when the
dynamic type is exactly `map[string]string`. -/
def GoValue.assertMapStringString : GoValue → Except Panic (Option StrMap)
  | .mapStringString m => .ok m
  | _ => .error "interface conversion: interface {} is not map[string]string"

/-! ## Schema descriptors -/

/-- A validation function of the schema framework, as data.

Modelled from the spec: `validation.IsUUID` and `validation.StringInSlice`
belong to the schema framework, which is not part of the sources; the spec
describes them as "must be a UUID" and "must be one of {…}". -/
inductive Validator where
  | IsUUID
  | StringInSlice (valid : List String) (ignoreCase : Bool)
  deriving DecidableEq, Repr

mutual
/-- One attribute of a resource: `schema.Schema` with the fields the sources set. -/
inductive Schema where
  | mk (type : ValueType) (required : Bool) (optional : Bool)
      (default : Option GoValue) (validateFunc : Option Validator)
      (maxItems : Nat) (elem : Elem)
/-- The `Elem` of a list or set attribute: nothing, a nested resource (its
attribute table) or an element schema. -/
inductive Elem where
  | none
  | resource (attrs : List (String × Schema))
  | schema (s : Schema)
end

/-- An attribute table: the `map[string]*schema.Schema` of a resource, in
source order. -/
abbrev SchemaMap := List (String × Schema)

/-- `Type` field of an attribute. -/
def Schema.Type : Schema → ValueType
  | .mk t _ _ _ _ _ _ => t

/-- `Required` field of an attribute. -/
def Schema.Required : Schema → Bool
  | .mk _ r _ _ _ _ _ => r

/-- `Optional` field of an attribute. -/
def Schema.Optional : Schema → Bool
  | .mk _ _ o _ _ _ _ => o

/-- `Default` field of an attribute (`none` when the source sets none). -/
def Schema.Default : Schema → Option GoValue
  | .mk _ _ _ d _ _ _ => d

/-- `ValidateFunc` field of an attribute (`none` when the source sets none). -/
def Schema.ValidateFunc : Schema → Option Validator
  | .mk _ _ _ _ v _ _ => v

/-- `MaxItems` field of an attribute (0 when the source sets none). -/
def Schema.MaxItems : Schema → Nat
  | .mk _ _ _ _ _ m _ => m

/-- `Elem` field of an attribute. -/
def Schema.Elem : Schema → Elem
  | .mk _ _ _ _ _ _ e => e

/-- The first value stored under `key` in a list of named values. -/
def lookup {α : Type} (key : String) : List (String × α) → Option α
  | [] => none
  | (k, v) :: rest => if k = key then some v else lookup key rest

/-- Look an attribute up by name. -/
def SchemaMap.find (m : SchemaMap) (key : String) : Option Schema :=
  lookup key m

/-- The attribute names of a table. -/
def SchemaMap.keys (m : SchemaMap) : List String :=
  m.map (·.1)

/-- A required string attribute. -/
def requiredString : Schema :=
  .mk .TypeString true false none none 0 .none

/-- An optional map attribute. -/
def optionalMap : Schema :=
  .mk .TypeMap false true none none 0 .none

/-- The attribute table of `newEmail` (descriptions left out). -/
def newEmail : SchemaMap :=
  [ ("default_from_name", requiredString),
    ("default_html_template", requiredString),
    ("default_subject", requiredString),
    ("default_text_template", requiredString),
    ("from_email", requiredString),
    ("localized_from_names", optionalMap),
    ("localized_html_templates", optionalMap),
    ("localized_subjects", optionalMap),
    ("localized_text_templates", optionalMap),
    ("name", requiredString) ]

/-! ## The attribute store -/

/-- Zero value of a value kind, as the attribute store returns it for an
attribute that was never given a value. A map attribute reads back as a
`map[string]interface{}`. -/
def ValueType.Zero : ValueType → GoValue
  | .TypeBool => .bool false
  | .TypeInt => .int 0
  | .TypeString => .string ""
  | .TypeMap => .mapStringInterface []
  | .TypeList => .nil
  | .TypeSet => .nil

/-- The attribute store handed to every lifecycle operation.

Modelled from the spec: `schema.ResourceData` belongs to the schema framework,
which is not part of the sources. The store holds one identity string
and the attribute tree; a generic attribute map out of which typed values are
pulled by dynamic type assertions. `attrs` holds the value last written for
each attribute, most recent first. -/
structure ResourceData where
  schema : SchemaMap
  id : String
  attrs : List (String × GoValue)

/-- The value last written for `key`, if any. -/
def ResourceData.raw (d : ResourceData) (key : String) : Option GoValue :=
  lookup key d.attrs

/-- The stored value decoded by the kind of its attribute: a value of another
kind is no value. -/
def ValueType.decode : ValueType → Option GoValue → Option GoValue
  | .TypeString, some (.string v) => some (.string v)
  | .TypeBool, some (.bool b) => some (.bool b)
  | .TypeInt, some (.int n) => some (.int n)
  | .TypeMap, some (.mapStringInterface m) => some (.mapStringInterface m)
  | _, _ => none

/-- The value an attribute resolves to: the configured value, or, when the
configuration omits the attribute, its declared default, or the zero value of
its kind when it declares none.

Modelled from the spec: defaulting belongs to the schema framework, which is
not part of the sources; build "reads each declared attribute from the
validated configuration tree (applying the declared default when the attribute
was not explicitly set)". -/
def Schema.resolve (s : Schema) (configured : Option GoValue) : GoValue :=
  match configured with
  | some v => v
  | none =>
    match s.Default with
    | some d => d
    | none => s.Type.Zero

/-- Reading `data.Get(key)`: the stored value decoded by the attribute's kind
and resolved against the attribute's schema. A string attribute reads back as
a `string`, a map attribute as a `map[string]interface{}`. -/
def ResourceData.Get (d : ResourceData) (key : String) : GoValue :=
  match d.schema.find key with
  | none => .nil
  | some s => s.resolve (s.Type.decode (d.raw key))

/-- Reading `data.GetOk(key)`: the value of `Get`, and whether it was set to a
value other than the zero value of its kind. -/
def ResourceData.GetOk (d : ResourceData) (key : String) : GoValue × Bool :=
  match d.schema.find key with
  | none => (.nil, false)
  | some s => (d.Get key, decide (d.Get key ≠ s.Type.Zero))

/-- Reading `data.Id()`. -/
def ResourceData.Id (d : ResourceData) : String :=
  d.id

/-- Writing `data.SetId(v)`. -/
def ResourceData.SetId (d : ResourceData) (v : String) : ResourceData :=
  { d with id := v }

/-- Writing `data.Set(key, value)`: the value is converted to the attribute's
kind and replaces whatever the attribute held; a nil or empty map leaves an
empty map. The second component is the error `Set` returns for an unknown
attribute or a value of the wrong kind (the store is then unchanged). -/
def ResourceData.Set (d : ResourceData) (key : String) (value : GoValue) :
    ResourceData × Option String :=
  match d.schema.find key with
  | none => (d, some "Invalid address to set")
  | some s =>
    match s.Type, value with
    | .TypeString, .string v => ({ d with attrs := (key, .string v) :: d.attrs }, none)
    | .TypeBool, .bool b => ({ d with attrs := (key, .bool b) :: d.attrs }, none)
    | .TypeInt, .int n => ({ d with attrs := (key, .int n) :: d.attrs }, none)
    | .TypeMap, .mapStringString m =>
      ({ d with attrs := (key, .mapStringInterface (m.getD [])) :: d.attrs }, none)
    | .TypeMap, .mapStringInterface m =>
      ({ d with attrs := (key, .mapStringInterface m) :: d.attrs }, none)
    | _, _ => (d, some "value of the wrong kind")

/-- The attribute tree of a store: every attribute of its table with the value
`Get` returns for it. Two stores hold the same configuration when their trees
are equal, so an unset map and an empty one are the same configuration. -/
def ResourceData.config (d : ResourceData) : List (String × GoValue) :=
  d.schema.keys.map (fun k => (k, d.Get k))

/-! ## The remote API objects -/

/-- The `fusionauth.EmailTemplate` of the API client, with the fields the
sources use. A localized map is `none` when it is a nil map. -/
structure EmailTemplate where
  DefaultFromName : String := ""
  DefaultHtmlTemplate : String := ""
  DefaultSubject : String := ""
  DefaultTextTemplate : String := ""
  FromEmail : String := ""
  Id : String := ""
  LocalizedFromNames : Option StrMap := none
  LocalizedHtmlTemplates : Option StrMap := none
  LocalizedSubjects : Option StrMap := none
  LocalizedTextTemplates : Option StrMap := none
  Name : String := ""
  deriving DecidableEq, Repr

/-- The request body `fusionauth.EmailTemplateRequest`. -/
structure EmailTemplateRequest where
  EmailTemplate : EmailTemplate
  deriving DecidableEq, Repr

/-- The response body `fusionauth.EmailTemplateResponse`. -/
structure EmailTemplateResponse where
  EmailTemplate : EmailTemplate
  deriving DecidableEq, Repr

/-- One field-level or general error of the API. -/
structure ApiError where
  code : String
  message : String
  deriving DecidableEq, Repr

/-- The API error collection `fusionauth.Errors`. -/
structure Errors where
  FieldErrors : List (String × List ApiError)
  GeneralErrors : List ApiError
  deriving DecidableEq, Repr

/-- A Go `error` value: an error handed back by the API client (a transport
failure, or the distinguished not-found condition of a retrieve), or the value
built by `fmt.Errorf` from a format and its one argument. -/
inductive GoError where
  | transport (msg : String)
  | notFound
  | errorfErr (format : String) (cause : GoError)
  | errorfErrors (format : String) (errs : Errors)
  deriving DecidableEq, Repr

/-- The methods of the API client the email resource calls. A nil error
collection or a nil error is `none`.

Modelled from the spec: the transport collaborator is not part of the sources:
`create(request) → (response, apiErrorCollection|nil, transportError|nil)`,
`retrieve(identity) → (response, transportError|nil)`, and the same shapes for
update and delete. -/
structure Client where
  CreateEmailTemplate : String → EmailTemplateRequest →
    EmailTemplateResponse × Option Errors × Option GoError
  RetrieveEmailTemplate : String → EmailTemplateResponse × Option GoError
  UpdateEmailTemplate : String → EmailTemplateRequest →
    EmailTemplateResponse × Option Errors × Option GoError
  DeleteEmailTemplate : String → Option Errors × Option GoError

/-- A remote call issued by an operation, with its arguments. -/
inductive RemoteCall where
  | CreateEmailTemplate (id : String) (request : EmailTemplateRequest)
  | RetrieveEmailTemplate (id : String)
  | UpdateEmailTemplate (id : String) (request : EmailTemplateRequest)
  | DeleteEmailTemplate (id : String)
  deriving DecidableEq, Repr

/-- What a lifecycle operation leaves behind: the `error` it returned (`none` is
nil) or the panic that ended it, the attribute store afterwards, and the remote
calls it issued, in order. -/
structure OpResult where
  ret : Except Panic (Option GoError)
  data : ResourceData
  calls : List RemoteCall

/-! ## The email template resource -/

/-- The statement `if i, ok := data.GetOk(key); ok { field = i.(map[string]string) }`
of `buildEmail`: `none` leaves the field as it is, `some m` assigns `m`. -/
def localizedField (data : ResourceData) (key : String) :
    Except Panic (Option (Option StrMap)) :=
  match data.GetOk key with
  | (i, true) => do
    let m ← i.assertMapStringString
    pure (some m)
  | (_, false) => pure none

/-- The function `buildEmail`: the request object built from the attribute store. -/
def buildEmail (data : ResourceData) : Except Panic EmailTemplate := do
  let defaultFromName ← (data.Get "default_from_name").assertString
  let defaultHtmlTemplate ← (data.Get "default_html_template").assertString
  let defaultSubject ← (data.Get "default_subject").assertString
  let defaultTextTemplate ← (data.Get "default_text_template").assertString
  let fromEmail ← (data.Get "from_email").assertString
  let name ← (data.Get "name").assertString
  let e : EmailTemplate :=
    { DefaultFromName := defaultFromName
      DefaultHtmlTemplate := defaultHtmlTemplate
      DefaultSubject := defaultSubject
      DefaultTextTemplate := defaultTextTemplate
      FromEmail := fromEmail
      Name := name }
  let e := match ← localizedField data "localized_from_names" with
    | some m => { e with LocalizedFromNames := m }
    | none => e
  let e := match ← localizedField data "localized_html_templates" with
    | some m => { e with LocalizedHtmlTemplates := m }
    | none => e
  let e := match ← localizedField data "localized_subjects" with
    | some m => { e with LocalizedSubjects := m }
    | none => e
  let e := match ← localizedField data "localized_text_templates" with
    | some m => { e with LocalizedTextTemplates := m }
    | none => e
  return e

/-- The function `createEmail`. -/
def createEmail (data : ResourceData) (client : Client) : OpResult :=
  match buildEmail data with
  | .error p => { ret := .error p, data := data, calls := [] }
  | .ok e =>
    let request : EmailTemplateRequest := { EmailTemplate := e }
    let (resp, faErrs, err) := client.CreateEmailTemplate "" request
    let calls := [RemoteCall.CreateEmailTemplate "" request]
    match err with
    | some err =>
      { ret := .ok (some (.errorfErr "CreateEmailTemplate err: %v" err)),
        data := data, calls := calls }
    | none =>
      match faErrs with
      | some faErrs =>
        { ret := .ok (some (.errorfErrors "CreateEmailTemplate errors: %v" faErrs)),
          data := data, calls := calls }
      | none =>
        { ret := .ok none, data := data.SetId resp.EmailTemplate.Id, calls := calls }

/-- Lines 131 to 141 of `readEmail`: the ten `data.Set` calls, each error
dropped (`_ = data.Set(...)`). -/
def setEmailAttributes (data : ResourceData) (t : EmailTemplate) : ResourceData :=
  let data := (data.Set "default_from_name" (.string t.DefaultFromName)).1
  let data := (data.Set "default_html_template" (.string t.DefaultHtmlTemplate)).1
  let data := (data.Set "default_subject" (.string t.DefaultSubject)).1
  let data := (data.Set "default_text_template" (.string t.DefaultTextTemplate)).1
  let data := (data.Set "from_email" (.string t.FromEmail)).1
  let data := (data.Set "localized_from_names" (.mapStringString t.LocalizedFromNames)).1
  let data :=
    (data.Set "localized_html_templates" (.mapStringString t.LocalizedHtmlTemplates)).1
  let data := (data.Set "localized_subjects" (.mapStringString t.LocalizedSubjects)).1
  let data :=
    (data.Set "localized_text_templates" (.mapStringString t.LocalizedTextTemplates)).1
  let data := (data.Set "name" (.string t.Name)).1
  data

/-- The function `readEmail`. -/
def readEmail (data : ResourceData) (client : Client) : OpResult :=
  let id := data.Id
  let (resp, err) := client.RetrieveEmailTemplate id
  let calls := [RemoteCall.RetrieveEmailTemplate id]
  match err with
  | some err => { ret := .ok (some err), data := data, calls := calls }
  | none =>
    { ret := .ok none, data := setEmailAttributes data resp.EmailTemplate, calls := calls }

/-- The function `updateEmail`. -/
def updateEmail (data : ResourceData) (client : Client) : OpResult :=
  match buildEmail data with
  | .error p => { ret := .error p, data := data, calls := [] }
  | .ok e =>
    let request : EmailTemplateRequest := { EmailTemplate := e }
    let (_, faErrs, err) := client.UpdateEmailTemplate data.Id request
    let calls := [RemoteCall.UpdateEmailTemplate data.Id request]
    match err with
    | some err =>
      { ret := .ok (some (.errorfErr "UpdateEmailTemplate err: %v" err)),
        data := data, calls := calls }
    | none =>
      match faErrs with
      | some faErrs =>
        { ret := .ok (some (.errorfErrors "UpdateEmailTemplate errors: %v" faErrs)),
          data := data, calls := calls }
      | none => { ret := .ok none, data := data, calls := calls }

/-- The function `deleteEmail`. -/
def deleteEmail (data : ResourceData) (client : Client) : OpResult :=
  let id := data.Id
  let (faErrs, err) := client.DeleteEmailTemplate id
  let calls := [RemoteCall.DeleteEmailTemplate id]
  match err with
  | some err => { ret := .ok (some err), data := data, calls := calls }
  | none =>
    match faErrs with
    | some faErrs =>
      { ret := .ok (some (.errorfErrors "DeleteEmailTemplate errors: %v" faErrs)),
        data := data, calls := calls }
    | none => { ret := .ok none, data := data, calls := calls }

/-! ## The application schema -/

/-- Whether `c` is a hexadecimal digit. -/
def isHexDigit (c : Char) : Bool :=
  c.isDigit || ('a' ≤ c && c ≤ 'f') || ('A' ≤ c && c ≤ 'F')

/-- UUID syntax: 36 characters, a hyphen at positions 8, 13, 18 and 23 and a
hexadecimal digit everywhere else. -/
def isUUID (v : String) : Bool :=
  v.length == 36 &&
    (List.range 36).all (fun i =>
      if i == 8 || i == 13 || i == 18 || i == 23 then v.data.getD i ' ' == '-'
      else isHexDigit (v.data.getD i ' '))

/-- Whether a validation function accepts a value, that is, reports no error.
`StringInSlice valid ignoreCase` accepts a string equal to one of `valid`, or,
when `ignoreCase` is set, equal to one of them up to letter case; both
validators reject a value that is not a string. -/
def Validator.accepts : Validator → GoValue → Bool
  | .StringInSlice valid ignoreCase, .string v =>
    valid.any (fun str => v == str || (ignoreCase && v.toLower == str.toLower))
  | .IsUUID, .string v => isUUID v
  | _, _ => false

/-- Whether the attribute `key` of a table accepts a value: its validation
function accepts it, or it has none. An unknown attribute accepts nothing. -/
def SchemaMap.validates (m : SchemaMap) (key : String) (v : GoValue) : Bool :=
  match m.find key with
  | none => false
  | some s =>
    match s.ValidateFunc with
    | none => true
    | some f => f.accepts v

/-- The attribute table of `newSamlv2Configuration`. -/
def newSamlv2Configuration : SchemaMap :=
  [ ("audience", .mk .TypeString false true none none 0 .none),
    ("callback_url", .mk .TypeString true false none none 0 .none),
    ("debug", .mk .TypeBool false true (some (.bool false)) none 0 .none),
    ("enabled", .mk .TypeBool false true (some (.bool false)) none 0 .none),
    ("issuer", .mk .TypeString true false none none 0 .none),
    ("key_id", .mk .TypeString false true none none 0 .none),
    ("logout_url", .mk .TypeString false true none none 0 .none),
    ("xml_signature_canonicalization_method",
      .mk .TypeString false true (some (.string "exclusive_with_comments"))
        (some (.StringInSlice
          ["exclusive", "exclusive_with_comments", "inclusive", "inclusive_with_comments"]
          false))
        0 .none) ]

/-- The attribute table of `newOAuthConfiguration`. -/
def newOAuthConfiguration : SchemaMap :=
  [ ("authorized_origin_urls",
      .mk .TypeSet false true none none 0
        (.schema (.mk .TypeString false false none none 0 .none))),
    ("authorized_redirect_urls",
      .mk .TypeSet false true none none 0
        (.schema (.mk .TypeString false false none none 0 .none))),
    ("client_secret", .mk .TypeString false true none none 0 .none),
    ("device_verification_url", .mk .TypeString false true none none 0 .none),
    ("enabled_grants",
      .mk .TypeSet false true none none 0
        (.schema (.mk .TypeString false false none none 0 .none))),
    ("generate_refresh_tokens", .mk .TypeBool false true none none 0 .none),
    ("logout_behavior",
      .mk .TypeString false true (some (.string "AllApplications"))
        (some (.StringInSlice ["RedirectOnly", "AllApplications"] false)) 0 .none),
    ("logout_url", .mk .TypeString false true none none 0 .none),
    ("require_client_authentication",
      .mk .TypeBool false true (some (.bool true)) none 0 .none) ]

/-- The attribute table of `newJWTConfiguration`. -/
def newJWTConfiguration : SchemaMap :=
  [ ("access_token_id", .mk .TypeString false true none none 0 .none),
    ("enabled", .mk .TypeBool false true (some (.bool false)) none 0 .none),
    ("id_token_key_id", .mk .TypeString false true none none 0 .none),
    ("refresh_token_ttl_minutes", .mk .TypeInt false true none none 0 .none),
    ("ttl_seconds", .mk .TypeInt false true none none 0 .none) ]

/-- The local function `requireable` of `newRegistrationConfiguration`. -/
def requireable : SchemaMap :=
  [ ("enabled", .mk .TypeBool false true (some (.bool false)) none 0 .none),
    ("required", .mk .TypeBool false true (some (.bool false)) none 0 .none) ]

/-- The attribute table of `newRegistrationConfiguration`. -/
def newRegistrationConfiguration : SchemaMap :=
  [ ("birth_date", .mk .TypeList false true none none 1 (.resource requireable)),
    ("confirm_password", .mk .TypeBool false true (some (.bool false)) none 0 .none),
    ("enabled", .mk .TypeBool false true (some (.bool false)) none 0 .none),
    ("first_name", .mk .TypeList false true none none 1 (.resource requireable)),
    ("full_name", .mk .TypeList false true none none 1 (.resource requireable)),
    ("last_name", .mk .TypeList false true none none 1 (.resource requireable)),
    ("login_id_type",
      .mk .TypeString false true (some (.string "email"))
        (some (.StringInSlice ["email", "username"] false)) 0 .none),
    ("middle_name", .mk .TypeList false true none none 1 (.resource requireable)),
    ("mobile_phone", .mk .TypeList false true none none 1 (.resource requireable)),
    ("type",
      .mk .TypeString false true (some (.string "basic"))
        (some (.StringInSlice ["basic", "advanced"] false)) 0 .none),
    ("form_id", .mk .TypeString false true none none 0 .none) ]

/-- The attribute table of `newApplication`. -/
def newApplication : SchemaMap :=
  [ ("application_id", .mk .TypeString false true none (some .IsUUID) 0 .none),
    ("tenant_id", .mk .TypeString true false none (some .IsUUID) 0 .none),
    ("authentication_token_configuration_enabled",
      .mk .TypeBool false true (some (.bool false)) none 0 .none),
    ("clean_speak_configuration",
      .mk .TypeList false true none none 1
        (.resource
          [ ("application_ids",
              .mk .TypeSet false true none none 0
                (.schema (.mk .TypeString false false none none 0 .none))),
            ("username_moderation",
              .mk .TypeList false true none none 1
                (.resource
                  [ ("enabled",
                      .mk .TypeBool false true (some (.bool false)) none 0 .none),
                    ("application_id",
                      .mk .TypeString false true none none 0 .none) ])) ])),
    ("data", .mk .TypeMap false true none none 0 .none),
    ("jwt_configuration",
      .mk .TypeList false true none none 1 (.resource newJWTConfiguration)),
    ("lambda_configuration",
      .mk .TypeList false true none none 1
        (.resource
          [ ("access_token_populate_id", .mk .TypeString false true none none 0 .none),
            ("id_token_populate_id", .mk .TypeString false true none none 0 .none),
            ("samlv2_populate_id", .mk .TypeString false true none none 0 .none) ])),
    ("login_configuration",
      .mk .TypeList false true none none 1
        (.resource
          [ ("allow_token_refresh",
              .mk .TypeBool false true (some (.bool false)) none 0 .none),
            ("generate_refresh_tokens",
              .mk .TypeBool false true (some (.bool false)) none 0 .none),
            ("require_authentication",
              .mk .TypeBool false true (some (.bool true)) none 0 .none) ])),
    ("name", .mk .TypeString true false none none 0 .none),
    ("oauth_configuration",
      .mk .TypeList false true none none 1 (.resource newOAuthConfiguration)),
    ("registration_configuration",
      .mk .TypeList false true none none 1 (.resource newRegistrationConfiguration)),
    ("passwordless_configuration_enabled",
      .mk .TypeBool false true (some (.bool false)) none 0 .none),
    ("registration_delete_policy",
      .mk .TypeList false true none none 1
        (.resource
          [ ("unverified_enabled",
              .mk .TypeBool false true (some (.bool false)) none 0 .none),
            ("unverified_number_of_days_to_retain",
              .mk .TypeInt false true none none 0 .none) ])),
    ("samlv2_configuration",
      .mk .TypeList false true none none 1 (.resource newSamlv2Configuration)),
    ("verification_email_template_id", .mk .TypeString false true none none 0 .none),
    ("verify_registration", .mk .TypeBool false true (some (.bool false)) none 0 .none),
    ("webhook_ids",
      .mk .TypeSet false true none none 0
        (.schema (.mk .TypeString false false none none 0 .none))),
    ("email_configuration",
      .mk .TypeList false true none none 1
        (.resource
          [ ("email_verification_template_id",
              .mk .TypeString false true none (some .IsUUID) 0 .none),
            ("forgot_password_template_id",
              .mk .TypeString false true none (some .IsUUID) 0 .none),
            ("passwordless_email_template_id",
              .mk .TypeString false true none (some .IsUUID) 0 .none),
            ("set_password_email_template_id",
              .mk .TypeString false true none (some .IsUUID) 0 .none) ])) ]

/-- The attribute table of the nested block of an attribute (empty when the
attribute has no nested resource). -/
def Schema.block (s : Schema) : SchemaMap :=
  match s.Elem with
  | .resource attrs => attrs
  | _ => []

/-- The attributes one level below those of `m`, each named by its path. -/
def SchemaMap.nested (m : SchemaMap) : SchemaMap :=
  m.flatMap (fun kv => kv.2.block.map (fun sub => (kv.1 ++ "." ++ sub.1, sub.2)))

/-- Every attribute of the application schema, at any depth, named by its path
(the tree is three levels deep). -/
def applicationAttributes : SchemaMap :=
  newApplication ++ newApplication.nested ++ newApplication.nested.nested

/-- Whether an attribute is enumerated: a string checked against a closed list. -/
def Schema.isEnumerated (s : Schema) : Bool :=
  match s.ValidateFunc with
  | some (.StringInSlice _ _) => true
  | _ => false

/-- The paths and declared defaults of the boolean and enumerated attributes of
a list of attributes that declare a default. -/
def declaredDefaults (m : SchemaMap) : List (String × GoValue) :=
  m.filterMap (fun kv =>
    if kv.2.Type = .TypeBool ∨ kv.2.isEnumerated = true then
      kv.2.Default.map (fun d => (kv.1, d))
    else none)

/-- The validation function a string meets when it is given for an attribute:
that of the attribute itself when it holds a string, that of its element
schema when it is a set or list of strings, none otherwise. -/
def Schema.stringValidator (s : Schema) : Option Validator :=
  match s.Type, s.Elem with
  | .TypeString, _ => s.ValidateFunc
  | _, .schema e => e.ValidateFunc
  | _, _ => none

/-- Whether schema validation lets the string `v` through as the value, or as
an element, of the attribute `path`: the validation function it meets accepts
it, or it meets none. -/
def SchemaMap.acceptsString (m : SchemaMap) (path : String) (v : String) : Bool :=
  match m.find path with
  | none => false
  | some s =>
    match s.stringValidator with
    | none => true
    | some f => f.accepts (.string v)

/-- The attributes of the application schema that hold an entity identifier,
by path. -/
def identifierAttributes : List String :=
  [ "application_id",
    "tenant_id",
    "verification_email_template_id",
    "webhook_ids",
    "clean_speak_configuration.application_ids",
    "clean_speak_configuration.username_moderation.application_id",
    "lambda_configuration.access_token_populate_id",
    "lambda_configuration.id_token_populate_id",
    "lambda_configuration.samlv2_populate_id",
    "jwt_configuration.access_token_id",
    "jwt_configuration.id_token_key_id",
    "samlv2_configuration.key_id",
    "registration_configuration.form_id",
    "email_configuration.email_verification_template_id",
    "email_configuration.forgot_password_template_id",
    "email_configuration.passwordless_email_template_id",
    "email_configuration.set_password_email_template_id" ]

/-- Whether the declared default of an attribute passes the attribute's own
validation function (true when it declares no default or has no validation
function). -/
def Schema.defaultValid (s : Schema) : Bool :=
  match s.Default, s.ValidateFunc with
  | some d, some f => f.accepts d
  | _, _ => true

/-- The paths of the attributes that declare both a default and a closed list
of literals, each with its default. -/
def enumeratedDefaults (m : SchemaMap) : List (String × GoValue) :=
  m.filterMap (fun kv =>
    if kv.2.isEnumerated = true then kv.2.Default.map (fun d => (kv.1, d)) else none)

/-- The nested block `login_configuration` of `newApplication`. -/
def loginConfiguration : SchemaMap :=
  match newApplication.find "login_configuration" with
  | some s => s.block
  | none => []

/-! ## Concrete configurations and remote services -/

/-- A validated configuration without localized values, not yet created: the
six required strings are set, the four optional maps are not. -/
def couponEmail : ResourceData :=
  { schema := newEmail, id := "",
    attrs :=
      [ ("default_from_name", .string "Pied Piper"),
        ("default_html_template", .string "<p>Welcome</p>"),
        ("default_subject", .string "Welcome"),
        ("default_text_template", .string "Welcome"),
        ("from_email", .string "a@b.com"),
        ("name", .string "April 2016 Coupon Email") ] }

/-- The request object of `couponEmail`. -/
def couponTemplate : EmailTemplate :=
  { DefaultFromName := "Pied Piper"
    DefaultHtmlTemplate := "<p>Welcome</p>"
    DefaultSubject := "Welcome"
    DefaultTextTemplate := "Welcome"
    FromEmail := "a@b.com"
    Name := "April 2016 Coupon Email" }

/-- The configuration `couponEmail` with one localized from-name added. -/
def localizedEmail : ResourceData :=
  { couponEmail with
    attrs := ("localized_from_names", .mapStringInterface [("fr", "Le Joueur")]) ::
      couponEmail.attrs }

/-- The configuration `couponEmail` with a subject in two more languages. -/
def bilingualEmail : ResourceData :=
  { couponEmail with
    attrs :=
      ("localized_subjects",
        .mapStringInterface [("de", "Willkommen"), ("fr", "Bienvenue")]) ::
      couponEmail.attrs }

/-- The record of `bilingualEmail` once created under an identity. -/
def storedBilingualEmail : ResourceData :=
  { bilingualEmail with id := "9f1c2f3e-52b7-4c57-a6a3-0d1f5c1e7b10" }

/-- An `oauth_configuration` block that sets three attributes and omits the
others, `require_client_authentication` among them. -/
def oauthBlock : ResourceData :=
  { schema := newOAuthConfiguration, id := "",
    attrs :=
      [ ("client_secret", .string "s3cret"),
        ("logout_behavior", .string "RedirectOnly"),
        ("generate_refresh_tokens", .bool true) ] }

/-- The record of `couponEmail` once created under an identity. -/
def storedEmail : ResourceData :=
  { couponEmail with id := "3c219e58-ed0e-4b18-ad48-f4f92793ae32" }

/-- A remote service that accepts every request: create answers with the
submitted template under a generated identity. -/
def acceptingClient : Client :=
  { CreateEmailTemplate := fun _ request =>
      ({ EmailTemplate :=
          { request.EmailTemplate with Id := "3c219e58-ed0e-4b18-ad48-f4f92793ae32" } },
        none, none)
    RetrieveEmailTemplate := fun id =>
      ({ EmailTemplate := { couponTemplate with Id := id } }, none)
    UpdateEmailTemplate := fun id request =>
      ({ EmailTemplate := { request.EmailTemplate with Id := id } }, none, none)
    DeleteEmailTemplate := fun _ => (none, none) }

/-- An error collection with two field errors. -/
def twoFieldErrors : Errors :=
  { FieldErrors :=
      [ ("emailTemplate.name", [{ code := "[blank]", message := "name is required" }]),
        ("emailTemplate.fromEmail", [{ code := "[invalid]", message := "not an address" }]) ]
    GeneralErrors := [] }

/-- A remote service that rejects every write with `twoFieldErrors` and reports
not-found on every retrieve. -/
def rejectingClient : Client :=
  { CreateEmailTemplate := fun _ _ => ({ EmailTemplate := {} }, some twoFieldErrors, none)
    RetrieveEmailTemplate := fun _ => ({ EmailTemplate := {} }, some .notFound)
    UpdateEmailTemplate := fun _ _ => ({ EmailTemplate := {} }, some twoFieldErrors, none)
    DeleteEmailTemplate := fun _ => (some twoFieldErrors, none) }

/-- A remote service that stores a template under a name of its own. -/
def renamingClient : Client :=
  { acceptingClient with
    CreateEmailTemplate := fun _ request =>
      ({ EmailTemplate :=
          { request.EmailTemplate with
            Id := "3c219e58-ed0e-4b18-ad48-f4f92793ae32", Name := "Coupon (April 2016)" } },
        none, none) }

/-! ## Results about the email template resource -/

/-- What `createEmail` does once `buildEmail` has returned the request `e` and
the remote call has answered `(resp, faErrs, err)`. -/
theorem createEmail_of_build (data : ResourceData) (client : Client) (e : EmailTemplate)
    (resp : EmailTemplateResponse) (faErrs : Option Errors) (err : Option GoError)
    (hb : buildEmail data = .ok e)
    (hc : client.CreateEmailTemplate "" { EmailTemplate := e } = (resp, faErrs, err)) :
    createEmail data client =
      match err, faErrs with
      | some err, _ =>
        { ret := .ok (some (.errorfErr "CreateEmailTemplate err: %v" err)),
          data := data, calls := [.CreateEmailTemplate "" { EmailTemplate := e }] }
      | none, some faErrs =>
        { ret := .ok (some (.errorfErrors "CreateEmailTemplate errors: %v" faErrs)),
          data := data, calls := [.CreateEmailTemplate "" { EmailTemplate := e }] }
      | none, none =>
        { ret := .ok none, data := data.SetId resp.EmailTemplate.Id,
          calls := [.CreateEmailTemplate "" { EmailTemplate := e }] } := by
  unfold createEmail
  simp only [hb, hc]
  cases err <;> cases faErrs <;> rfl

/-- What `updateEmail` does once `buildEmail` has returned the request `e` and
the remote call has answered `(resp, faErrs, err)`. -/
theorem updateEmail_of_build (data : ResourceData) (client : Client) (e : EmailTemplate)
    (resp : EmailTemplateResponse) (faErrs : Option Errors) (err : Option GoError)
    (hb : buildEmail data = .ok e)
    (hc : client.UpdateEmailTemplate data.Id { EmailTemplate := e } = (resp, faErrs, err)) :
    updateEmail data client =
      match err, faErrs with
      | some err, _ =>
        { ret := .ok (some (.errorfErr "UpdateEmailTemplate err: %v" err)),
          data := data, calls := [.UpdateEmailTemplate data.Id { EmailTemplate := e }] }
      | none, some faErrs =>
        { ret := .ok (some (.errorfErrors "UpdateEmailTemplate errors: %v" faErrs)),
          data := data, calls := [.UpdateEmailTemplate data.Id { EmailTemplate := e }] }
      | none, none =>
        { ret := .ok none, data := data,
          calls := [.UpdateEmailTemplate data.Id { EmailTemplate := e }] } := by
  unfold updateEmail
  simp only [hb, hc]
  cases err <;> cases faErrs <;> rfl

/-- What `deleteEmail` does once the remote call has answered `(faErrs, err)`. -/
theorem deleteEmail_of_outcome (data : ResourceData) (client : Client)
    (faErrs : Option Errors) (err : Option GoError)
    (hc : client.DeleteEmailTemplate data.Id = (faErrs, err)) :
    deleteEmail data client =
      match err, faErrs with
      | some err, _ =>
        { ret := .ok (some err), data := data, calls := [.DeleteEmailTemplate data.Id] }
      | none, some faErrs =>
        { ret := .ok (some (.errorfErrors "DeleteEmailTemplate errors: %v" faErrs)),
          data := data, calls := [.DeleteEmailTemplate data.Id] }
      | none, none =>
        { ret := .ok none, data := data, calls := [.DeleteEmailTemplate data.Id] } := by
  unfold deleteEmail
  simp only [hc]
  cases err <;> cases faErrs <;> rfl

/-- The store `setEmailAttributes` leaves behind: the ten values of the
template written on top of whatever the email store held. -/
theorem setEmailAttributes_eq (id : String) (attrs : List (String × GoValue))
    (t : EmailTemplate) :
    setEmailAttributes { schema := newEmail, id := id, attrs := attrs } t =
      { schema := newEmail, id := id,
        attrs :=
          ("name", .string t.Name) ::
          ("localized_text_templates",
            .mapStringInterface (t.LocalizedTextTemplates.getD [])) ::
          ("localized_subjects", .mapStringInterface (t.LocalizedSubjects.getD [])) ::
          ("localized_html_templates",
            .mapStringInterface (t.LocalizedHtmlTemplates.getD [])) ::
          ("localized_from_names", .mapStringInterface (t.LocalizedFromNames.getD [])) ::
          ("from_email", .string t.FromEmail) ::
          ("default_text_template", .string t.DefaultTextTemplate) ::
          ("default_subject", .string t.DefaultSubject) ::
          ("default_html_template", .string t.DefaultHtmlTemplate) ::
          ("default_from_name", .string t.DefaultFromName) :: attrs } := by
  simp [setEmailAttributes, ResourceData.Set, SchemaMap.find, lookup, newEmail,
    requiredString, optionalMap, Schema.Type]

/-- The attribute tree `setEmailAttributes` leaves behind is a function of the
template alone. -/
theorem config_setEmailAttributes (id : String) (attrs : List (String × GoValue))
    (t : EmailTemplate) :
    (setEmailAttributes { schema := newEmail, id := id, attrs := attrs } t).config =
      [ ("default_from_name", .string t.DefaultFromName),
        ("default_html_template", .string t.DefaultHtmlTemplate),
        ("default_subject", .string t.DefaultSubject),
        ("default_text_template", .string t.DefaultTextTemplate),
        ("from_email", .string t.FromEmail),
        ("localized_from_names", .mapStringInterface (t.LocalizedFromNames.getD [])),
        ("localized_html_templates", .mapStringInterface (t.LocalizedHtmlTemplates.getD [])),
        ("localized_subjects", .mapStringInterface (t.LocalizedSubjects.getD [])),
        ("localized_text_templates", .mapStringInterface (t.LocalizedTextTemplates.getD [])),
        ("name", .string t.Name) ] := by
  rw [setEmailAttributes_eq]
  simp [ResourceData.config, ResourceData.Get, ResourceData.raw, SchemaMap.find,
    SchemaMap.keys, lookup, newEmail, requiredString, optionalMap, Schema.Type,
    Schema.resolve, ValueType.decode]


/-- A string attribute of a store always reads back as a string. -/
theorem Get_requiredString (d : ResourceData) (key : String)
    (h : d.schema.find key = some requiredString) : ∃ v, d.Get key = .string v := by
  unfold ResourceData.Get
  rw [h]
  cases hr : d.raw key with
  | none => exact ⟨"", rfl⟩
  | some r => cases r <;> exact ⟨_, rfl⟩

/-- A map attribute of a store always reads back as a `map[string]interface{}`. -/
theorem Get_optionalMap (d : ResourceData) (key : String)
    (h : d.schema.find key = some optionalMap) : ∃ m, d.Get key = .mapStringInterface m := by
  unfold ResourceData.Get
  rw [h]
  cases hr : d.raw key with
  | none => exact ⟨[], rfl⟩
  | some r => cases r <;> exact ⟨_, rfl⟩

/-- The localized statement of `buildEmail` on a map attribute: either the
attribute reads back empty and the field is left alone, or the type assertion
ends in a panic. It never assigns. -/
theorem localizedField_optionalMap (d : ResourceData) (key : String)
    (h : d.schema.find key = some optionalMap) :
    (d.Get key = .mapStringInterface [] ∧ localizedField d key = .ok none) ∨
    (d.Get key ≠ .mapStringInterface [] ∧
      localizedField d key =
        .error "interface conversion: interface {} is not map[string]string") := by
  obtain ⟨m, hm⟩ := Get_optionalMap d key h
  unfold localizedField ResourceData.GetOk
  rw [h, hm]
  cases m with
  | nil => left; exact ⟨rfl, rfl⟩
  | cons a rest =>
    right
    refine ⟨by simp, ?_⟩
    simp [optionalMap, Schema.Type, ValueType.Zero, GoValue.assertMapStringString]

/-- The attribute tree of an email store, attribute by attribute. -/
theorem config_newEmail (id : String) (attrs : List (String × GoValue)) :
    ResourceData.config { schema := newEmail, id := id, attrs := attrs } =
      [ ("default_from_name",
          ResourceData.Get { schema := newEmail, id := id, attrs := attrs }
            "default_from_name"),
        ("default_html_template",
          ResourceData.Get { schema := newEmail, id := id, attrs := attrs }
            "default_html_template"),
        ("default_subject",
          ResourceData.Get { schema := newEmail, id := id, attrs := attrs }
            "default_subject"),
        ("default_text_template",
          ResourceData.Get { schema := newEmail, id := id, attrs := attrs }
            "default_text_template"),
        ("from_email",
          ResourceData.Get { schema := newEmail, id := id, attrs := attrs } "from_email"),
        ("localized_from_names",
          ResourceData.Get { schema := newEmail, id := id, attrs := attrs }
            "localized_from_names"),
        ("localized_html_templates",
          ResourceData.Get { schema := newEmail, id := id, attrs := attrs }
            "localized_html_templates"),
        ("localized_subjects",
          ResourceData.Get { schema := newEmail, id := id, attrs := attrs }
            "localized_subjects"),
        ("localized_text_templates",
          ResourceData.Get { schema := newEmail, id := id, attrs := attrs }
            "localized_text_templates"),
        ("name",
          ResourceData.Get { schema := newEmail, id := id, attrs := attrs } "name") ] := by
  rfl

/-- Round trip where `buildEmail` returns: writing back the attributes of the
request it built leaves the attribute tree of an email store as it was. -/
theorem roundtrip_of_buildEmail_ok (id : String) (attrs : List (String × GoValue))
    (e : EmailTemplate)
    (h : buildEmail { schema := newEmail, id := id, attrs := attrs } = .ok e) :
    (setEmailAttributes { schema := newEmail, id := id, attrs := attrs } e).config =
      ResourceData.config { schema := newEmail, id := id, attrs := attrs } := by
  rw [config_setEmailAttributes]
  obtain ⟨v1, h1⟩ := Get_requiredString ⟨newEmail, id, attrs⟩ "default_from_name" rfl
  obtain ⟨v2, h2⟩ := Get_requiredString ⟨newEmail, id, attrs⟩ "default_html_template" rfl
  obtain ⟨v3, h3⟩ := Get_requiredString ⟨newEmail, id, attrs⟩ "default_subject" rfl
  obtain ⟨v4, h4⟩ := Get_requiredString ⟨newEmail, id, attrs⟩ "default_text_template" rfl
  obtain ⟨v5, h5⟩ := Get_requiredString ⟨newEmail, id, attrs⟩ "from_email" rfl
  obtain ⟨v6, h6⟩ := Get_requiredString ⟨newEmail, id, attrs⟩ "name" rfl
  have m1 := localizedField_optionalMap ⟨newEmail, id, attrs⟩ "localized_from_names" rfl
  have m2 := localizedField_optionalMap ⟨newEmail, id, attrs⟩ "localized_html_templates" rfl
  have m3 := localizedField_optionalMap ⟨newEmail, id, attrs⟩ "localized_subjects" rfl
  have m4 := localizedField_optionalMap ⟨newEmail, id, attrs⟩ "localized_text_templates" rfl
  unfold buildEmail at h
  simp only [h1, h2, h3, h4, h5, h6, GoValue.assertString] at h
  rcases m1 with ⟨g1, l1⟩ | ⟨-, l1⟩
  swap
  · simp only [l1, bind, Except.bind, pure, Except.pure] at h
    cases h
  rcases m2 with ⟨g2, l2⟩ | ⟨-, l2⟩
  swap
  · simp only [l1, l2, bind, Except.bind, pure, Except.pure] at h
    cases h
  rcases m3 with ⟨g3, l3⟩ | ⟨-, l3⟩
  swap
  · simp only [l1, l2, l3, bind, Except.bind, pure, Except.pure] at h
    cases h
  rcases m4 with ⟨g4, l4⟩ | ⟨-, l4⟩
  swap
  · simp only [l1, l2, l3, l4, bind, Except.bind, pure, Except.pure] at h
    cases h
  simp only [l1, l2, l3, l4, bind, Except.bind, pure, Except.pure] at h
  injection h with h
  subst h
  rw [config_newEmail, h1, h2, h3, h4, h5, h6, g1, g2, g3, g4]
  rfl

/-- When `buildEmail` returns a request for an email store, every localized
attribute reads back empty and the four localized maps of the request are
absent: the request never carries a localized value. -/
theorem buildEmail_ok_localized_absent (id : String) (attrs : List (String × GoValue))
    (e : EmailTemplate)
    (h : buildEmail { schema := newEmail, id := id, attrs := attrs } = .ok e) :
    (ResourceData.Get { schema := newEmail, id := id, attrs := attrs }
        "localized_from_names" = .mapStringInterface [] ∧
      ResourceData.Get { schema := newEmail, id := id, attrs := attrs }
        "localized_html_templates" = .mapStringInterface [] ∧
      ResourceData.Get { schema := newEmail, id := id, attrs := attrs }
        "localized_subjects" = .mapStringInterface [] ∧
      ResourceData.Get { schema := newEmail, id := id, attrs := attrs }
        "localized_text_templates" = .mapStringInterface []) ∧
    e.LocalizedFromNames = none ∧ e.LocalizedHtmlTemplates = none ∧
    e.LocalizedSubjects = none ∧ e.LocalizedTextTemplates = none := by
  obtain ⟨v1, h1⟩ := Get_requiredString ⟨newEmail, id, attrs⟩ "default_from_name" rfl
  obtain ⟨v2, h2⟩ := Get_requiredString ⟨newEmail, id, attrs⟩ "default_html_template" rfl
  obtain ⟨v3, h3⟩ := Get_requiredString ⟨newEmail, id, attrs⟩ "default_subject" rfl
  obtain ⟨v4, h4⟩ := Get_requiredString ⟨newEmail, id, attrs⟩ "default_text_template" rfl
  obtain ⟨v5, h5⟩ := Get_requiredString ⟨newEmail, id, attrs⟩ "from_email" rfl
  obtain ⟨v6, h6⟩ := Get_requiredString ⟨newEmail, id, attrs⟩ "name" rfl
  have m1 := localizedField_optionalMap ⟨newEmail, id, attrs⟩ "localized_from_names" rfl
  have m2 := localizedField_optionalMap ⟨newEmail, id, attrs⟩ "localized_html_templates" rfl
  have m3 := localizedField_optionalMap ⟨newEmail, id, attrs⟩ "localized_subjects" rfl
  have m4 := localizedField_optionalMap ⟨newEmail, id, attrs⟩ "localized_text_templates" rfl
  unfold buildEmail at h
  simp only [h1, h2, h3, h4, h5, h6, GoValue.assertString] at h
  rcases m1 with ⟨g1, l1⟩ | ⟨-, l1⟩
  swap
  · simp only [l1, bind, Except.bind, pure, Except.pure] at h
    cases h
  rcases m2 with ⟨g2, l2⟩ | ⟨-, l2⟩
  swap
  · simp only [l1, l2, bind, Except.bind, pure, Except.pure] at h
    cases h
  rcases m3 with ⟨g3, l3⟩ | ⟨-, l3⟩
  swap
  · simp only [l1, l2, l3, bind, Except.bind, pure, Except.pure] at h
    cases h
  rcases m4 with ⟨g4, l4⟩ | ⟨-, l4⟩
  swap
  · simp only [l1, l2, l3, l4, bind, Except.bind, pure, Except.pure] at h
    cases h
  simp only [l1, l2, l3, l4, bind, Except.bind, pure, Except.pure] at h
  injection h with h
  subst h
  exact ⟨⟨g1, g2, g3, g4⟩, rfl, rfl, rfl, rfl⟩

/-- Where no localized attribute of an email store holds a value, `buildEmail`
returns a request. -/
theorem buildEmail_ok_of_no_localized_value (id : String)
    (attrs : List (String × GoValue))
    (g1 : ResourceData.Get { schema := newEmail, id := id, attrs := attrs }
      "localized_from_names" = .mapStringInterface [])
    (g2 : ResourceData.Get { schema := newEmail, id := id, attrs := attrs }
      "localized_html_templates" = .mapStringInterface [])
    (g3 : ResourceData.Get { schema := newEmail, id := id, attrs := attrs }
      "localized_subjects" = .mapStringInterface [])
    (g4 : ResourceData.Get { schema := newEmail, id := id, attrs := attrs }
      "localized_text_templates" = .mapStringInterface []) :
    ∃ e, buildEmail { schema := newEmail, id := id, attrs := attrs } = .ok e := by
  obtain ⟨v1, h1⟩ := Get_requiredString ⟨newEmail, id, attrs⟩ "default_from_name" rfl
  obtain ⟨v2, h2⟩ := Get_requiredString ⟨newEmail, id, attrs⟩ "default_html_template" rfl
  obtain ⟨v3, h3⟩ := Get_requiredString ⟨newEmail, id, attrs⟩ "default_subject" rfl
  obtain ⟨v4, h4⟩ := Get_requiredString ⟨newEmail, id, attrs⟩ "default_text_template" rfl
  obtain ⟨v5, h5⟩ := Get_requiredString ⟨newEmail, id, attrs⟩ "from_email" rfl
  obtain ⟨v6, h6⟩ := Get_requiredString ⟨newEmail, id, attrs⟩ "name" rfl
  have l1 : localizedField ⟨newEmail, id, attrs⟩ "localized_from_names" = .ok none := by
    rcases localizedField_optionalMap ⟨newEmail, id, attrs⟩ "localized_from_names" rfl
      with ⟨-, l⟩ | ⟨n, -⟩
    · exact l
    · exact absurd g1 n
  have l2 : localizedField ⟨newEmail, id, attrs⟩ "localized_html_templates" = .ok none := by
    rcases localizedField_optionalMap ⟨newEmail, id, attrs⟩ "localized_html_templates" rfl
      with ⟨-, l⟩ | ⟨n, -⟩
    · exact l
    · exact absurd g2 n
  have l3 : localizedField ⟨newEmail, id, attrs⟩ "localized_subjects" = .ok none := by
    rcases localizedField_optionalMap ⟨newEmail, id, attrs⟩ "localized_subjects" rfl
      with ⟨-, l⟩ | ⟨n, -⟩
    · exact l
    · exact absurd g3 n
  have l4 : localizedField ⟨newEmail, id, attrs⟩ "localized_text_templates" = .ok none := by
    rcases localizedField_optionalMap ⟨newEmail, id, attrs⟩ "localized_text_templates" rfl
      with ⟨-, l⟩ | ⟨n, -⟩
    · exact l
    · exact absurd g4 n
  unfold buildEmail
  simp only [h1, h2, h3, h4, h5, h6, GoValue.assertString, l1, l2, l3, l4, bind,
    Except.bind, pure, Except.pure]
  exact ⟨_, rfl⟩

/-! ## Properties of the email template resource -/

/-- C1: the round trip through `buildEmail` and the attributes `readEmail` sets
breaks on a validated configuration that has a localized value: `buildEmail`
ends in a panic on the type assertion to `map[string]string`, so there is no
request object to read back. -/
theorem buildEmail_panics_on_localized_value :
    localizedEmail.Get "localized_from_names" = .mapStringInterface [("fr", "Le Joueur")] ∧
    localizedEmail.GetOk "localized_from_names" =
      (.mapStringInterface [("fr", "Le Joueur")], true) ∧
    buildEmail localizedEmail =
      .error "interface conversion: interface {} is not map[string]string" ∧
    ∀ e, buildEmail localizedEmail ≠ .ok e := by
  refine ⟨rfl, rfl, rfl, ?_⟩
  intro e h
  have h2 : buildEmail localizedEmail =
      .error "interface conversion: interface {} is not map[string]string" := rfl
  rw [h2] at h
  cases h

/-- C2: each of `createEmail`, `updateEmail` and `deleteEmail` returns, for
every outcome of its remote call, exactly one `error` value, without a panic;
that value is non-nil if and only if the transport error or the API error
collection of the call is non-nil; and when it is non-nil the store (identity
and attributes) is the one before the call. The remote call of `createEmail`
and `updateEmail` is the one made once the request `e` is built; `deleteEmail`
builds no request and the statement holds for every store. Whatever happens,
`updateEmail` and `deleteEmail` leave the store as it was, and `createEmail`
does unless it returns nil. -/
theorem email_write_ops_fail_iff_remote_error (data : ResourceData) (client : Client) :
    (∀ (e : EmailTemplate) (resp : EmailTemplateResponse) (faErrs : Option Errors)
        (err : Option GoError),
      buildEmail data = .ok e →
      client.CreateEmailTemplate "" { EmailTemplate := e } = (resp, faErrs, err) →
      (∃! r, (createEmail data client).ret = .ok r) ∧
      ((∃ x, (createEmail data client).ret = .ok (some x)) ↔
        (err ≠ none ∨ faErrs ≠ none)) ∧
      ((∃ x, (createEmail data client).ret = .ok (some x)) →
        (createEmail data client).data = data)) ∧
    (∀ (e : EmailTemplate) (resp : EmailTemplateResponse) (faErrs : Option Errors)
        (err : Option GoError),
      buildEmail data = .ok e →
      client.UpdateEmailTemplate data.Id { EmailTemplate := e } = (resp, faErrs, err) →
      (∃! r, (updateEmail data client).ret = .ok r) ∧
      ((∃ x, (updateEmail data client).ret = .ok (some x)) ↔
        (err ≠ none ∨ faErrs ≠ none)) ∧
      ((∃ x, (updateEmail data client).ret = .ok (some x)) →
        (updateEmail data client).data = data)) ∧
    (∀ (faErrs : Option Errors) (err : Option GoError),
      client.DeleteEmailTemplate data.Id = (faErrs, err) →
      (∃! r, (deleteEmail data client).ret = .ok r) ∧
      ((∃ x, (deleteEmail data client).ret = .ok (some x)) ↔
        (err ≠ none ∨ faErrs ≠ none)) ∧
      ((∃ x, (deleteEmail data client).ret = .ok (some x)) →
        (deleteEmail data client).data = data)) ∧
    ((createEmail data client).ret ≠ .ok none → (createEmail data client).data = data) ∧
    (updateEmail data client).data = data ∧
    (deleteEmail data client).data = data := by
  refine ⟨?_, ?_, ?_, ?_, ?_, ?_⟩
  · intro e resp faErrs err hb hc
    rw [createEmail_of_build data client e resp faErrs err hb hc]
    cases err <;> cases faErrs <;> simp [ExistsUnique]
  · intro e resp faErrs err hb hc
    rw [updateEmail_of_build data client e resp faErrs err hb hc]
    cases err <;> cases faErrs <;> simp [ExistsUnique]
  · intro faErrs err hc
    rw [deleteEmail_of_outcome data client faErrs err hc]
    cases err <;> cases faErrs <;> simp [ExistsUnique]
  · unfold createEmail
    cases hb : buildEmail data with
    | error p => intro _; rfl
    | ok e =>
      rcases hc : client.CreateEmailTemplate "" { EmailTemplate := e }
        with ⟨resp, faErrs, err⟩
      simp only [hc]
      cases err <;> cases faErrs <;> simp
  · unfold updateEmail
    cases hb : buildEmail data with
    | error p => rfl
    | ok e =>
      rcases hc : client.UpdateEmailTemplate data.Id { EmailTemplate := e }
        with ⟨resp, faErrs, err⟩
      simp only [hc]
      cases err <;> cases faErrs <;> rfl
  · rcases hc : client.DeleteEmailTemplate data.Id with ⟨faErrs, err⟩
    rw [deleteEmail_of_outcome data client faErrs err hc]
    cases err <;> cases faErrs <;> rfl

/-- A rejected create of `couponEmail` and a rejected delete of
`storedBilingualEmail`, a record that holds a localized value: the two field
errors come back as one error value and the store is untouched. -/
theorem email_write_ops_fail_iff_remote_error_witness :
    buildEmail couponEmail = .ok couponTemplate ∧
    (createEmail couponEmail rejectingClient).ret =
      .ok (some (.errorfErrors "CreateEmailTemplate errors: %v" twoFieldErrors)) ∧
    ((∃ x, (createEmail couponEmail rejectingClient).ret = .ok (some x)) →
      (createEmail couponEmail rejectingClient).data = couponEmail) ∧
    (deleteEmail storedBilingualEmail rejectingClient).ret =
      .ok (some (.errorfErrors "DeleteEmailTemplate errors: %v" twoFieldErrors)) ∧
    ((∃ x, (deleteEmail storedBilingualEmail rejectingClient).ret = .ok (some x)) ↔
      ((none : Option GoError) ≠ none ∨ some twoFieldErrors ≠ none)) ∧
    (deleteEmail storedBilingualEmail rejectingClient).data = storedBilingualEmail :=
  ⟨rfl, rfl,
    ((email_write_ops_fail_iff_remote_error couponEmail rejectingClient).1 couponTemplate
      { EmailTemplate := {} } (some twoFieldErrors) none rfl rfl).2.2,
    rfl,
    ((email_write_ops_fail_iff_remote_error storedBilingualEmail rejectingClient).2.2.1
      (some twoFieldErrors) none rfl).2.1,
    (email_write_ops_fail_iff_remote_error storedBilingualEmail rejectingClient).2.2.2.2.2⟩

/-- C3: once the request `e` is built, `createEmail` issues one create request,
with the empty string as identity and `e` as body; and on a successful answer
(no transport error, no API error collection) it returns nil and the local
identity is the `Id` of the answer's template. -/
theorem createEmail_binds_server_identity (data : ResourceData) (client : Client)
    (e : EmailTemplate) (resp : EmailTemplateResponse)
    (hb : buildEmail data = .ok e)
    (hc : client.CreateEmailTemplate "" { EmailTemplate := e } = (resp, none, none)) :
    (createEmail data client).calls = [.CreateEmailTemplate "" { EmailTemplate := e }] ∧
    (createEmail data client).ret = .ok none ∧
    (createEmail data client).data.Id = resp.EmailTemplate.Id := by
  rw [createEmail_of_build data client e resp none none hb hc]
  exact ⟨rfl, rfl, rfl⟩

/-- Creating `couponEmail` binds the identity the service generated. -/
theorem createEmail_binds_server_identity_witness :
    buildEmail couponEmail = .ok couponTemplate ∧
    (createEmail couponEmail acceptingClient).calls =
      [.CreateEmailTemplate "" { EmailTemplate := couponTemplate }] ∧
    (createEmail couponEmail acceptingClient).ret = .ok none ∧
    (createEmail couponEmail acceptingClient).data.Id =
      "3c219e58-ed0e-4b18-ad48-f4f92793ae32" :=
  ⟨rfl,
    createEmail_binds_server_identity couponEmail acceptingClient couponTemplate
      { EmailTemplate := { couponTemplate with Id := "3c219e58-ed0e-4b18-ad48-f4f92793ae32" } }
      rfl rfl⟩

/-- C4: after a successful retrieve, `readEmail` returns nil and each of the ten
attributes of the email store holds the corresponding field of the answer's
template (a string as it is, also when empty; a localized map with its
entries, a nil map as the empty map), whatever the store held before. -/
theorem readEmail_overwrites_all_attributes (id : String)
    (attrs : List (String × GoValue)) (client : Client) (resp : EmailTemplateResponse)
    (hc : client.RetrieveEmailTemplate id = (resp, none)) :
    (readEmail { schema := newEmail, id := id, attrs := attrs } client).ret = .ok none ∧
    (readEmail { schema := newEmail, id := id, attrs := attrs } client).data.config =
      [ ("default_from_name", .string resp.EmailTemplate.DefaultFromName),
        ("default_html_template", .string resp.EmailTemplate.DefaultHtmlTemplate),
        ("default_subject", .string resp.EmailTemplate.DefaultSubject),
        ("default_text_template", .string resp.EmailTemplate.DefaultTextTemplate),
        ("from_email", .string resp.EmailTemplate.FromEmail),
        ("localized_from_names",
          .mapStringInterface (resp.EmailTemplate.LocalizedFromNames.getD [])),
        ("localized_html_templates",
          .mapStringInterface (resp.EmailTemplate.LocalizedHtmlTemplates.getD [])),
        ("localized_subjects",
          .mapStringInterface (resp.EmailTemplate.LocalizedSubjects.getD [])),
        ("localized_text_templates",
          .mapStringInterface (resp.EmailTemplate.LocalizedTextTemplates.getD [])),
        ("name", .string resp.EmailTemplate.Name) ] ∧
    ∀ prior : List (String × GoValue),
      (readEmail { schema := newEmail, id := id, attrs := prior } client).data.config =
        (readEmail { schema := newEmail, id := id, attrs := attrs } client).data.config := by
  have key : ∀ a : List (String × GoValue),
      readEmail { schema := newEmail, id := id, attrs := a } client =
        { ret := .ok none,
          data := setEmailAttributes { schema := newEmail, id := id, attrs := a }
            resp.EmailTemplate,
          calls := [.RetrieveEmailTemplate id] } := by
    intro a
    unfold readEmail
    simp only [ResourceData.Id, hc]
  refine ⟨by rw [key], ?_, ?_⟩
  · rw [key]
    exact config_setEmailAttributes id attrs resp.EmailTemplate
  · intro prior
    rw [key, key]
    simp only [config_setEmailAttributes]

/-- Reading a record whose remote template has only a name and one localized
subject: the nine other attributes are overwritten with zero values. -/
theorem readEmail_overwrites_all_attributes_witness :
    (readEmail { schema := newEmail, id := "3c219e58", attrs := couponEmail.attrs }
      { acceptingClient with
        RetrieveEmailTemplate := fun _ =>
          ({ EmailTemplate := { Name := "n", LocalizedSubjects := some [("de", "Hallo")] } },
            none) }).data.config =
      [ ("default_from_name", .string ""),
        ("default_html_template", .string ""),
        ("default_subject", .string ""),
        ("default_text_template", .string ""),
        ("from_email", .string ""),
        ("localized_from_names", .mapStringInterface []),
        ("localized_html_templates", .mapStringInterface []),
        ("localized_subjects", .mapStringInterface [("de", "Hallo")]),
        ("localized_text_templates", .mapStringInterface []),
        ("name", .string "n") ] :=
  (readEmail_overwrites_all_attributes "3c219e58" couponEmail.attrs
    { acceptingClient with
      RetrieveEmailTemplate := fun _ =>
        ({ EmailTemplate := { Name := "n", LocalizedSubjects := some [("de", "Hallo")] } },
          none) }
    { EmailTemplate := { Name := "n", LocalizedSubjects := some [("de", "Hallo")] } }
    rfl).2.1

/-- C5, as stated, fails: on a not-found answer `readEmail` returns the
not-found error as its result and the held identity stays as it was. -/
theorem readEmail_not_found_keeps_identity :
    rejectingClient.RetrieveEmailTemplate storedEmail.Id =
      ({ EmailTemplate := {} }, some .notFound) ∧
    ¬ ((readEmail storedEmail rejectingClient).data.Id = "" ∧
        (readEmail storedEmail rejectingClient).ret = .ok none) ∧
    (readEmail storedEmail rejectingClient).data.Id =
      "3c219e58-ed0e-4b18-ad48-f4f92793ae32" ∧
    (readEmail storedEmail rejectingClient).ret = .ok (some .notFound) := by
  refine ⟨rfl, ?_, rfl, rfl⟩
  rintro ⟨h, -⟩
  have h2 : (readEmail storedEmail rejectingClient).data.Id =
      "3c219e58-ed0e-4b18-ad48-f4f92793ae32" := rfl
  rw [h2] at h
  exact absurd h (by decide)

/-- C5, amended: when the retrieve reports an error, not-found included,
`readEmail` issues that one retrieve with the held identity, returns the error
as it is, and leaves the store (identity and attributes) as it was. -/
theorem readEmail_error_returned_store_kept (data : ResourceData) (client : Client)
    (resp : EmailTemplateResponse) (err : GoError)
    (hc : client.RetrieveEmailTemplate data.Id = (resp, some err)) :
    (readEmail data client).calls = [.RetrieveEmailTemplate data.Id] ∧
    (readEmail data client).ret = .ok (some err) ∧
    (readEmail data client).data = data := by
  have key : readEmail data client =
      { ret := .ok (some err), data := data, calls := [.RetrieveEmailTemplate data.Id] } := by
    unfold readEmail
    simp only [hc]
  rw [key]
  exact ⟨rfl, rfl, rfl⟩

/-- Reading `storedEmail` from a service that reports not-found. -/
theorem readEmail_error_returned_store_kept_witness :
    rejectingClient.RetrieveEmailTemplate storedEmail.Id =
      ({ EmailTemplate := {} }, some .notFound) ∧
    (readEmail storedEmail rejectingClient).ret = .ok (some .notFound) ∧
    (readEmail storedEmail rejectingClient).data = storedEmail :=
  ⟨rfl,
    (readEmail_error_returned_store_kept storedEmail rejectingClient
      { EmailTemplate := {} } .notFound rfl).2⟩


/-- C6, as stated, fails: after a successful create the local attributes are
the submitted ones, not those of the answer's template. -/
theorem createEmail_does_not_write_response :
    (createEmail couponEmail renamingClient).ret = .ok none ∧
    (createEmail couponEmail renamingClient).data.Get "name" =
      .string "April 2016 Coupon Email" ∧
    (setEmailAttributes couponEmail
      (renamingClient.CreateEmailTemplate ""
        { EmailTemplate := couponTemplate }).1.EmailTemplate).Get "name" =
      .string "Coupon (April 2016)" ∧
    (createEmail couponEmail renamingClient).data.config ≠
      (setEmailAttributes couponEmail
        (renamingClient.CreateEmailTemplate ""
          { EmailTemplate := couponTemplate }).1.EmailTemplate).config := by
  refine ⟨rfl, rfl, rfl, ?_⟩
  intro h
  have h1 : (createEmail couponEmail renamingClient).data.config =
      [ ("default_from_name", .string "Pied Piper"),
        ("default_html_template", .string "<p>Welcome</p>"),
        ("default_subject", .string "Welcome"),
        ("default_text_template", .string "Welcome"),
        ("from_email", .string "a@b.com"),
        ("localized_from_names", .mapStringInterface []),
        ("localized_html_templates", .mapStringInterface []),
        ("localized_subjects", .mapStringInterface []),
        ("localized_text_templates", .mapStringInterface []),
        ("name", .string "April 2016 Coupon Email") ] := rfl
  have h2 : (setEmailAttributes couponEmail
        (renamingClient.CreateEmailTemplate ""
          { EmailTemplate := couponTemplate }).1.EmailTemplate).config =
      [ ("default_from_name", .string "Pied Piper"),
        ("default_html_template", .string "<p>Welcome</p>"),
        ("default_subject", .string "Welcome"),
        ("default_text_template", .string "Welcome"),
        ("from_email", .string "a@b.com"),
        ("localized_from_names", .mapStringInterface []),
        ("localized_html_templates", .mapStringInterface []),
        ("localized_subjects", .mapStringInterface []),
        ("localized_text_templates", .mapStringInterface []),
        ("name", .string "Coupon (April 2016)") ] := rfl
  rw [h1, h2] at h
  simp at h

/-- C6, amended: once the request `e` is built, a successful create binds the
identity to the `Id` of the answer's template and leaves every local attribute
as submitted; no other field of the answer is written. -/
theorem createEmail_binds_identity_only (data : ResourceData) (client : Client)
    (e : EmailTemplate) (resp : EmailTemplateResponse)
    (hb : buildEmail data = .ok e)
    (hc : client.CreateEmailTemplate "" { EmailTemplate := e } = (resp, none, none)) :
    (createEmail data client).data.Id = resp.EmailTemplate.Id ∧
    (createEmail data client).data.attrs = data.attrs ∧
    (createEmail data client).data.config = data.config ∧
    (createEmail data client).data = data.SetId resp.EmailTemplate.Id := by
  rw [createEmail_of_build data client e resp none none hb hc]
  exact ⟨rfl, rfl, rfl, rfl⟩

/-- Creating `couponEmail` on a service that renames it: the local name stays. -/
theorem createEmail_binds_identity_only_witness :
    buildEmail couponEmail = .ok couponTemplate ∧
    (createEmail couponEmail renamingClient).data.Id =
      "3c219e58-ed0e-4b18-ad48-f4f92793ae32" ∧
    (createEmail couponEmail renamingClient).data.attrs = couponEmail.attrs :=
  ⟨rfl,
    (createEmail_binds_identity_only couponEmail renamingClient couponTemplate
      { EmailTemplate :=
          { couponTemplate with
            Id := "3c219e58-ed0e-4b18-ad48-f4f92793ae32", Name := "Coupon (April 2016)" } }
      rfl rfl).1,
    (createEmail_binds_identity_only couponEmail renamingClient couponTemplate
      { EmailTemplate :=
          { couponTemplate with
            Id := "3c219e58-ed0e-4b18-ad48-f4f92793ae32", Name := "Coupon (April 2016)" } }
      rfl rfl).2.1⟩

/-- C7: `updateEmail` never changes the local identity, whatever the store and
the remote service; and once the request `e` is built it issues one update
request, keyed by the held identity and with `e` as body, whatever the remote
call answers. -/
theorem updateEmail_keyed_by_held_identity (data : ResourceData) (client : Client) :
    (updateEmail data client).data.Id = data.Id ∧
    ∀ e, buildEmail data = .ok e →
      (updateEmail data client).calls =
        [.UpdateEmailTemplate data.Id { EmailTemplate := e }] := by
  constructor
  · unfold updateEmail
    cases hb : buildEmail data with
    | error p => rfl
    | ok e =>
      rcases hc : client.UpdateEmailTemplate data.Id { EmailTemplate := e }
        with ⟨resp, faErrs, err⟩
      simp only [hc]
      cases err <;> cases faErrs <;> rfl
  · intro e hb
    rcases hc : client.UpdateEmailTemplate data.Id { EmailTemplate := e }
      with ⟨resp, faErrs, err⟩
    rw [updateEmail_of_build data client e resp faErrs err hb hc]
    cases err <;> cases faErrs <;> rfl

/-- Updating `storedEmail`: one request under the held identity, on a service
that accepts it and on one that rejects it. -/
theorem updateEmail_keyed_by_held_identity_witness :
    buildEmail storedEmail = .ok couponTemplate ∧
    (updateEmail storedEmail acceptingClient).calls =
      [.UpdateEmailTemplate "3c219e58-ed0e-4b18-ad48-f4f92793ae32"
        { EmailTemplate := couponTemplate }] ∧
    (updateEmail storedEmail rejectingClient).calls =
      [.UpdateEmailTemplate "3c219e58-ed0e-4b18-ad48-f4f92793ae32"
        { EmailTemplate := couponTemplate }] ∧
    (updateEmail storedEmail rejectingClient).data.Id =
      "3c219e58-ed0e-4b18-ad48-f4f92793ae32" :=
  ⟨rfl,
    (updateEmail_keyed_by_held_identity storedEmail acceptingClient).2 couponTemplate rfl,
    (updateEmail_keyed_by_held_identity storedEmail rejectingClient).2 couponTemplate rfl,
    (updateEmail_keyed_by_held_identity storedEmail rejectingClient).1⟩

/-- C13: `buildEmail` is not total on validated configurations: on a
configuration with subjects in two more languages the attribute store hands
the map back as a `map[string]interface{}`, the type assertion to
`map[string]string` ends in a panic, and `createEmail` ends with it before any
request is issued, so the configured locales never reach a request. -/
theorem buildEmail_panics_on_two_localized_subjects :
    bilingualEmail.GetOk "localized_subjects" =
      (.mapStringInterface [("de", "Willkommen"), ("fr", "Bienvenue")], true) ∧
    (GoValue.mapStringInterface
        [("de", "Willkommen"), ("fr", "Bienvenue")]).assertMapStringString =
      .error "interface conversion: interface {} is not map[string]string" ∧
    buildEmail bilingualEmail =
      .error "interface conversion: interface {} is not map[string]string" ∧
    (createEmail bilingualEmail acceptingClient).ret =
      .error "interface conversion: interface {} is not map[string]string" ∧
    (createEmail bilingualEmail acceptingClient).calls = [] ∧
    (updateEmail bilingualEmail acceptingClient).calls = [] := by
  exact ⟨rfl, rfl, rfl, rfl, rfl, rfl⟩

/-! ## Properties of the application schema -/

/-- C8: each enumerated attribute of the application schema accepts a string
exactly when it is, letter case included, one of the literals listed for it;
`"bogus"` and a literal in another letter case are rejected. -/
theorem enumerated_attributes_accept_exactly_their_literals (s : String) :
    (newSamlv2Configuration.validates "xml_signature_canonicalization_method" (.string s)
        = true ↔
      s = "exclusive" ∨ s = "exclusive_with_comments" ∨ s = "inclusive" ∨
        s = "inclusive_with_comments") ∧
    (newOAuthConfiguration.validates "logout_behavior" (.string s) = true ↔
      s = "RedirectOnly" ∨ s = "AllApplications") ∧
    (newRegistrationConfiguration.validates "login_id_type" (.string s) = true ↔
      s = "email" ∨ s = "username") ∧
    (newRegistrationConfiguration.validates "type" (.string s) = true ↔
      s = "basic" ∨ s = "advanced") ∧
    newSamlv2Configuration.validates "xml_signature_canonicalization_method"
      (.string "bogus") = false ∧
    newSamlv2Configuration.validates "xml_signature_canonicalization_method"
      (.string "Exclusive") = false ∧
    newOAuthConfiguration.validates "logout_behavior" (.string "redirectonly") = false := by
  refine ⟨?_, ?_, ?_, ?_, ?_, ?_, ?_⟩
  · simp [SchemaMap.validates, SchemaMap.find, lookup, newSamlv2Configuration,
      Schema.ValidateFunc, Validator.accepts]
  · simp [SchemaMap.validates, SchemaMap.find, lookup, newOAuthConfiguration,
      Schema.ValidateFunc, Validator.accepts]
  · simp [SchemaMap.validates, SchemaMap.find, lookup, newRegistrationConfiguration,
      Schema.ValidateFunc, Validator.accepts]
  · simp [SchemaMap.validates, SchemaMap.find, lookup, newRegistrationConfiguration,
      Schema.ValidateFunc, Validator.accepts]
  · simp [SchemaMap.validates, SchemaMap.find, lookup, newSamlv2Configuration,
      Schema.ValidateFunc, Validator.accepts]
  · simp [SchemaMap.validates, SchemaMap.find, lookup, newSamlv2Configuration,
      Schema.ValidateFunc, Validator.accepts]
  · simp [SchemaMap.validates, SchemaMap.find, lookup, newOAuthConfiguration,
      Schema.ValidateFunc, Validator.accepts]

/-- The boolean and enumerated attributes of the application schema that declare
a default, each with its default. -/
theorem declaredDefaults_applicationAttributes :
    declaredDefaults applicationAttributes =
      [ ("authentication_token_configuration_enabled", .bool false),
        ("passwordless_configuration_enabled", .bool false),
        ("verify_registration", .bool false),
        ("jwt_configuration.enabled", .bool false),
        ("login_configuration.allow_token_refresh", .bool false),
        ("login_configuration.generate_refresh_tokens", .bool false),
        ("login_configuration.require_authentication", .bool true),
        ("oauth_configuration.logout_behavior", .string "AllApplications"),
        ("oauth_configuration.require_client_authentication", .bool true),
        ("registration_configuration.confirm_password", .bool false),
        ("registration_configuration.enabled", .bool false),
        ("registration_configuration.login_id_type", .string "email"),
        ("registration_configuration.type", .string "basic"),
        ("registration_delete_policy.unverified_enabled", .bool false),
        ("samlv2_configuration.debug", .bool false),
        ("samlv2_configuration.enabled", .bool false),
        ("samlv2_configuration.xml_signature_canonicalization_method",
          .string "exclusive_with_comments"),
        ("clean_speak_configuration.username_moderation.enabled", .bool false),
        ("registration_configuration.birth_date.enabled", .bool false),
        ("registration_configuration.birth_date.required", .bool false),
        ("registration_configuration.first_name.enabled", .bool false),
        ("registration_configuration.first_name.required", .bool false),
        ("registration_configuration.full_name.enabled", .bool false),
        ("registration_configuration.full_name.required", .bool false),
        ("registration_configuration.last_name.enabled", .bool false),
        ("registration_configuration.last_name.required", .bool false),
        ("registration_configuration.middle_name.enabled", .bool false),
        ("registration_configuration.middle_name.required", .bool false),
        ("registration_configuration.mobile_phone.enabled", .bool false),
        ("registration_configuration.mobile_phone.required", .bool false) ] := by
  rfl

/-- The application schema has no attribute below its third level. -/
theorem applicationAttributes_complete : newApplication.nested.nested.nested = [] := by
  rfl

/-- C9: a boolean or enumerated attribute of the application schema that
declares a default is read back as that default from every block that omits
it, whatever the block sets for its other attributes; an `oauth_configuration`
block that omits `require_client_authentication` and a `login_configuration`
block that omits `require_authentication` read `true`, not the zero value
`false`. -/
theorem omitted_attribute_resolves_to_declared_default (path : String) (s : Schema)
    (d : GoValue) (hmem : (path, s) ∈ applicationAttributes)
    (hkind : s.Type = .TypeBool ∨ s.isEnumerated = true) (hd : s.Default = some d) :
    (path, d) ∈ declaredDefaults applicationAttributes ∧
    (∀ (block : SchemaMap) (key id : String) (attrs : List (String × GoValue)),
      block.find key = some s → lookup key attrs = none →
      ResourceData.Get { schema := block, id := id, attrs := attrs } key = d) ∧
    (∀ (id : String) (attrs : List (String × GoValue)),
      lookup "require_client_authentication" attrs = none →
      ResourceData.Get { schema := newOAuthConfiguration, id := id, attrs := attrs }
        "require_client_authentication" = .bool true) ∧
    (∀ (id : String) (attrs : List (String × GoValue)),
      lookup "require_authentication" attrs = none →
      ResourceData.Get { schema := loginConfiguration, id := id, attrs := attrs }
        "require_authentication" = .bool true) ∧
    ValueType.TypeBool.Zero = .bool false := by
  have omitted : ∀ (t : Schema) (v : GoValue) (block : SchemaMap) (key id : String)
      (attrs : List (String × GoValue)), t.Default = some v →
      block.find key = some t → lookup key attrs = none →
      ResourceData.Get { schema := block, id := id, attrs := attrs } key = v := by
    intro t v block key id attrs ht hfind hraw
    have hdec : t.Type.decode none = none := by
      cases t.Type <;> rfl
    simp [ResourceData.Get, ResourceData.raw, hfind, hraw, hdec, Schema.resolve, ht]
  refine ⟨?_, ?_, ?_, ?_, rfl⟩
  · unfold declaredDefaults
    rw [List.mem_filterMap]
    refine ⟨(path, s), hmem, ?_⟩
    simp [hkind, hd]
  · intro block key id attrs hfind hraw
    exact omitted s d block key id attrs hd hfind hraw
  · intro id attrs hraw
    exact omitted (.mk .TypeBool false true (some (.bool true)) none 0 .none) (.bool true)
      newOAuthConfiguration "require_client_authentication" id attrs rfl rfl hraw
  · intro id attrs hraw
    exact omitted (.mk .TypeBool false true (some (.bool true)) none 0 .none) (.bool true)
      loginConfiguration "require_authentication" id attrs rfl rfl hraw

/-- The block `oauthBlock` sets three other attributes and reads
`require_client_authentication` back as `true`. -/
theorem omitted_attribute_resolves_to_declared_default_witness :
    ("oauth_configuration.require_client_authentication",
      Schema.mk .TypeBool false true (some (.bool true)) none 0 .none) ∈
        applicationAttributes ∧
    lookup "require_client_authentication" oauthBlock.attrs = none ∧
    oauthBlock.Get "require_client_authentication" = .bool true ∧
    oauthBlock.Get "generate_refresh_tokens" = .bool true ∧
    oauthBlock.Get "logout_behavior" = .string "RedirectOnly" :=
  ⟨by simp [applicationAttributes, SchemaMap.nested, newApplication, Schema.block,
      Schema.Elem, newOAuthConfiguration],
    rfl,
    (omitted_attribute_resolves_to_declared_default
      "oauth_configuration.require_client_authentication"
      (.mk .TypeBool false true (some (.bool true)) none 0 .none) (.bool true)
      (by simp [applicationAttributes, SchemaMap.nested, newApplication, Schema.block,
        Schema.Elem, newOAuthConfiguration])
      (Or.inl rfl) rfl).2.1 newOAuthConfiguration "require_client_authentication" ""
        oauthBlock.attrs rfl rfl,
    rfl, rfl⟩

/-- C10: each of the six personal-data attributes of the registration
configuration is the same schema: an optional list of at most one nested block
whose table is `requireable`; and `requireable` has exactly the attributes
`enabled` and `required`, both boolean, optional, not required, with default
false and no validation function. -/
theorem requireable_blocks_are_uniform :
    ["birth_date", "first_name", "full_name", "last_name", "middle_name",
        "mobile_phone"].map newRegistrationConfiguration.find =
      List.replicate 6
        (some (.mk .TypeList false true none none 1 (.resource requireable))) ∧
    (Schema.mk .TypeList false true none none 1 (.resource requireable)).Type = .TypeList ∧
    (Schema.mk .TypeList false true none none 1 (.resource requireable)).Optional = true ∧
    (Schema.mk .TypeList false true none none 1 (.resource requireable)).Required = false ∧
    (Schema.mk .TypeList false true none none 1 (.resource requireable)).MaxItems = 1 ∧
    (Schema.mk .TypeList false true none none 1 (.resource requireable)).block =
      requireable ∧
    requireable.keys = ["enabled", "required"] ∧
    requireable.map
        (fun kv => (kv.2.Type, kv.2.Optional, kv.2.Required, kv.2.Default,
          kv.2.ValidateFunc)) =
      [ (.TypeBool, true, false, some (.bool false), none),
        (.TypeBool, true, false, some (.bool false), none) ] := by
  refine ⟨?_, rfl, rfl, rfl, rfl, rfl, rfl, rfl⟩
  simp [SchemaMap.find, lookup, newRegistrationConfiguration, List.replicate]

/-- The six identifier attributes that carry `validation.IsUUID` accept a string
exactly when it has UUID syntax. -/
theorem acceptsString_of_IsUUID (v : String) :
    applicationAttributes.acceptsString "application_id" v = isUUID v ∧
    applicationAttributes.acceptsString "tenant_id" v = isUUID v ∧
    applicationAttributes.acceptsString
      "email_configuration.email_verification_template_id" v = isUUID v ∧
    applicationAttributes.acceptsString
      "email_configuration.forgot_password_template_id" v = isUUID v ∧
    applicationAttributes.acceptsString
      "email_configuration.passwordless_email_template_id" v = isUUID v ∧
    applicationAttributes.acceptsString
      "email_configuration.set_password_email_template_id" v = isUUID v := by
  have h1 : applicationAttributes.find "application_id" =
      some (.mk .TypeString false true none (some .IsUUID) 0 .none) := by rfl
  have h2 : applicationAttributes.find "tenant_id" =
      some (.mk .TypeString true false none (some .IsUUID) 0 .none) := by rfl
  have h3 : applicationAttributes.find "email_configuration.email_verification_template_id" =
      some (.mk .TypeString false true none (some .IsUUID) 0 .none) := by rfl
  have h4 : applicationAttributes.find "email_configuration.forgot_password_template_id" =
      some (.mk .TypeString false true none (some .IsUUID) 0 .none) := by rfl
  have h5 : applicationAttributes.find "email_configuration.passwordless_email_template_id" =
      some (.mk .TypeString false true none (some .IsUUID) 0 .none) := by rfl
  have h6 : applicationAttributes.find "email_configuration.set_password_email_template_id" =
      some (.mk .TypeString false true none (some .IsUUID) 0 .none) := by rfl
  simp only [SchemaMap.acceptsString, h1, h2, h3, h4, h5, h6]
  exact ⟨rfl, rfl, rfl, rfl, rfl, rfl⟩

/-- C11: the application schema does not check every identifier attribute
against UUID syntax: the string `not-a-uuid` is rejected for `application_id`,
`tenant_id` and the four template ids of `email_configuration`, and accepted
for the eleven other identifier attributes, which carry no validation
function. -/
theorem identifier_attributes_without_uuid_check :
    isUUID "not-a-uuid" = false ∧
    identifierAttributes.map
        (fun p => (p, (applicationAttributes.find p).map Schema.stringValidator,
          applicationAttributes.acceptsString p "not-a-uuid")) =
      [ ("application_id", some (some .IsUUID), false),
        ("tenant_id", some (some .IsUUID), false),
        ("verification_email_template_id", some none, true),
        ("webhook_ids", some none, true),
        ("clean_speak_configuration.application_ids", some none, true),
        ("clean_speak_configuration.username_moderation.application_id", some none, true),
        ("lambda_configuration.access_token_populate_id", some none, true),
        ("lambda_configuration.id_token_populate_id", some none, true),
        ("lambda_configuration.samlv2_populate_id", some none, true),
        ("jwt_configuration.access_token_id", some none, true),
        ("jwt_configuration.id_token_key_id", some none, true),
        ("samlv2_configuration.key_id", some none, true),
        ("registration_configuration.form_id", some none, true),
        ("email_configuration.email_verification_template_id", some (some .IsUUID), false),
        ("email_configuration.forgot_password_template_id", some (some .IsUUID), false),
        ("email_configuration.passwordless_email_template_id", some (some .IsUUID), false),
        ("email_configuration.set_password_email_template_id", some (some .IsUUID), false) ] ∧
    newApplication.find "verification_email_template_id" =
      some (.mk .TypeString false true none none 0 .none) := by
  refine ⟨rfl, ?_, rfl⟩
  rfl

/-- C12: the attributes of the application schema that declare both a default
and a closed list of literals are the four enumerated ones, and the default of
each is accepted by the attribute's own validation function; no attribute of
the schema declares a default its validation function rejects. -/
theorem declared_defaults_pass_own_validators :
    enumeratedDefaults applicationAttributes =
      [ ("oauth_configuration.logout_behavior", .string "AllApplications"),
        ("registration_configuration.login_id_type", .string "email"),
        ("registration_configuration.type", .string "basic"),
        ("samlv2_configuration.xml_signature_canonicalization_method",
          .string "exclusive_with_comments") ] ∧
    (newSamlv2Configuration.find "xml_signature_canonicalization_method").map
        (fun s => (s.Default, s.defaultValid)) =
      some (some (.string "exclusive_with_comments"), true) ∧
    newSamlv2Configuration.validates "xml_signature_canonicalization_method"
      (.string "exclusive_with_comments") = true ∧
    (newOAuthConfiguration.find "logout_behavior").map
        (fun s => (s.Default, s.defaultValid)) =
      some (some (.string "AllApplications"), true) ∧
    newOAuthConfiguration.validates "logout_behavior" (.string "AllApplications") = true ∧
    (newRegistrationConfiguration.find "login_id_type").map
        (fun s => (s.Default, s.defaultValid)) =
      some (some (.string "email"), true) ∧
    newRegistrationConfiguration.validates "login_id_type" (.string "email") = true ∧
    (newRegistrationConfiguration.find "type").map
        (fun s => (s.Default, s.defaultValid)) =
      some (some (.string "basic"), true) ∧
    newRegistrationConfiguration.validates "type" (.string "basic") = true ∧
    applicationAttributes.all (fun kv => kv.2.defaultValid) = true := by
  refine ⟨rfl, rfl, rfl, rfl, rfl, rfl, rfl, rfl, rfl, rfl⟩

end FusionAuth
